import Mathlib

/-!
Verification development for the `my-sql-project` repository: a PySide6
desktop client over a PostgreSQL database with four tables (ai_models,
experiments, ddos_attacks, experiment_results) plus an `attack_type`
enumeration.  The code exists in two parallel stacks: a psycopg2 stack
(`database.py`, `models.py`, `widgets.py`) and a SQLAlchemy stack
(`main.py`).  We shallowly embed the database state, the DDL/DML routines
and the UI-level operations that the claims concern, and prove or refute
each claim.

Conventions of the embedding:
* every table is a Lean list of row structures, together with the serial
  counter that assigns the next primary key;
* CHECK constraints use SQL three-valued logic (a NULL comparison passes);
* server-set timestamp columns (`start_time`, `end_time`, `timestamp`)
  carry no constraint and are touched by no claim, so the row structures
  omit them;
* a statement that violates a constraint returns `Except.error`; the
  transaction wrappers roll the whole state back on error, exactly as the
  `try/except`+`rollback` code does.
-/

/-- The `attack_type` PostgreSQL enumeration created by `create_tables`
(database.py lines 41-46) and by `build_metadata` (main.py line 125). -/
inductive AttackType
  | udp_flood
  | icmp_flood
  | http_flood
  | syn_flood
deriving DecidableEq, Repr

/-- A row of `ai_models` (database.py lines 48-55). -/
structure AIModelRow where
  model_id : Nat
  name : String
  version : String
  description : Option String
  is_active : Bool
deriving DecidableEq, Repr

/-- A row of `experiments` (database.py lines 57-65); the two timestamp
columns are omitted (no constraint, no claim touches them). -/
structure ExperimentRow where
  experiment_id : Nat
  name : String
  total_attacks : Option Int
  detected_attacks : Option Int
  model_id : Option Nat
deriving DecidableEq, Repr

/-- A row of `ddos_attacks` (database.py lines 67-76); the timestamp
column is omitted. -/
structure AttackRow where
  attack_id : Nat
  source_ip : String
  target_ip : String
  attack_type : AttackType
  packet_count : Option Int
  duration_seconds : Option Int
  target_ports : Option (List Int)
deriving DecidableEq, Repr

/-- A row of `experiment_results` (database.py lines 78-86); `confidence`
is a FLOAT column modelled as a rational. -/
structure ResultRow where
  result_id : Nat
  experiment_id : Nat
  attack_id : Nat
  is_detected : Bool
  confidence : Option Rat
  detection_time_ms : Option Int
deriving DecidableEq, Repr

/-- The data of the four tables, with the serial counters of their
primary keys. -/
structure DBState where
  ai_models : List AIModelRow
  experiments : List ExperimentRow
  ddos_attacks : List AttackRow
  experiment_results : List ResultRow
  next_model_id : Nat
  next_experiment_id : Nat
  next_attack_id : Nat
  next_result_id : Nat
deriving DecidableEq, Repr

/-- A freshly created schema: all four tables empty, serials at 1. -/
def emptyDB : DBState :=
  { ai_models := [], experiments := [], ddos_attacks := [], experiment_results := []
    next_model_id := 1, next_experiment_id := 1, next_attack_id := 1, next_result_id := 1 }

/-- Database errors raised by the engine, as classified by the spec's
error taxonomy (constraint violations and missing objects). -/
inductive DbError
  | uniqueViolation
  | checkViolation
  | foreignKeyViolation
  | undefinedTable
deriving DecidableEq, Repr

/-- SQL three-valued conjunction: a CHECK with a NULL operand is unknown
and passes, but FALSE AND UNKNOWN is FALSE. -/
def sqlAnd : Option Bool → Option Bool → Option Bool
  | some false, _ => some false
  | _, some false => some false
  | some true, some true => some true
  | _, _ => none

/-- Three-valued `x >= k` over a nullable integer column. -/
def sqlGe (x : Option Int) (k : Int) : Option Bool :=
  x.map (fun v => decide (k ≤ v))

/-- Three-valued `x > k` over a nullable integer column. -/
def sqlGt (x : Option Int) (k : Int) : Option Bool :=
  x.map (fun v => decide (k < v))

/-- Three-valued `x <= y` over two nullable integer columns. -/
def sqlLe : Option Int → Option Int → Option Bool
  | some a, some b => some (decide (a ≤ b))
  | _, _ => none

/-- Three-valued `lo <= q <= hi` over a nullable rational column. -/
def sqlBetween (x : Option Rat) (lo hi : Rat) : Option Bool :=
  x.map (fun v => decide (lo ≤ v) && decide (v ≤ hi))

/-- A CHECK constraint fails only when its condition is definitely false. -/
def checkOk : Option Bool → Bool
  | some false => false
  | _ => true

/-- Does `ai_models` already hold a row with this (name, version) pair?
This is the condition of the `unique_model_name_version` constraint
(database.py line 54). -/
def aiModelsConflict (tbl : List AIModelRow) (name version : String) : Bool :=
  tbl.any (fun r => r.name == name && r.version == version)

/-- One `INSERT INTO ai_models (name, version, description, is_active)`:
fails on the `unique_model_name_version` constraint, otherwise appends the
row under the next serial id. -/
def insertAIModel (s : DBState) (name version : String) (descr : Option String)
    (act : Bool) : Except DbError DBState :=
  if aiModelsConflict s.ai_models name version then
    Except.error DbError.uniqueViolation
  else
    Except.ok { s with
      ai_models := s.ai_models ++
        [{ model_id := s.next_model_id, name := name, version := version
           description := descr, is_active := act }]
      next_model_id := s.next_model_id + 1 }

/-- One `INSERT INTO ddos_attacks ...`: enforces the CHECK constraints
`packet_count > 0` and `duration_seconds > 0`; `target_ports` has no
constraint at all. -/
def insertAttack (s : DBState) (source target : String) (ty : AttackType)
    (packets duration : Option Int) (ports : Option (List Int)) :
    Except DbError DBState :=
  if ¬ checkOk (sqlGt packets 0) then Except.error DbError.checkViolation
  else if ¬ checkOk (sqlGt duration 0) then Except.error DbError.checkViolation
  else
    Except.ok { s with
      ddos_attacks := s.ddos_attacks ++
        [{ attack_id := s.next_attack_id, source_ip := source, target_ip := target
           attack_type := ty, packet_count := packets
           duration_seconds := duration, target_ports := ports }]
      next_attack_id := s.next_attack_id + 1 }

/-- Does a nullable `model_id` reference satisfy the foreign key into
`ai_models` (a NULL reference always does)? -/
def modelFkOk (s : DBState) : Option Nat → Bool
  | none => true
  | some m => s.ai_models.any (fun r => r.model_id == m)

/-- One `INSERT INTO experiments ...`: enforces UNIQUE(name), the CHECK
constraints on the attack counters, and the (SET NULL) foreign key to
`ai_models`. -/
def insertExperiment (s : DBState) (name : String) (mid : Option Nat)
    (total det : Option Int) : Except DbError DBState :=
  if s.experiments.any (fun e => e.name == name) then
    Except.error DbError.uniqueViolation
  else if ¬ checkOk (sqlGe total 0) then Except.error DbError.checkViolation
  else if ¬ checkOk (sqlAnd (sqlGe det 0) (sqlLe det total)) then
    Except.error DbError.checkViolation
  else if ¬ modelFkOk s mid then
    Except.error DbError.foreignKeyViolation
  else
    Except.ok { s with
      experiments := s.experiments ++
        [{ experiment_id := s.next_experiment_id, name := name
           total_attacks := total, detected_attacks := det, model_id := mid }]
      next_experiment_id := s.next_experiment_id + 1 }

/-- One `INSERT INTO experiment_results ...`: enforces the NOT NULL
CASCADE foreign keys to `experiments` and `ddos_attacks`, the
UNIQUE(experiment_id, attack_id) constraint, and the CHECK constraints on
`confidence` and `detection_time_ms`. -/
def insertResult (s : DBState) (eid aid : Nat) (det : Bool)
    (conf : Option Rat) (ms : Option Int) : Except DbError DBState :=
  if ¬ s.experiments.any (fun e => e.experiment_id == eid) then
    Except.error DbError.foreignKeyViolation
  else if ¬ s.ddos_attacks.any (fun a => a.attack_id == aid) then
    Except.error DbError.foreignKeyViolation
  else if s.experiment_results.any
      (fun r => r.experiment_id == eid && r.attack_id == aid) then
    Except.error DbError.uniqueViolation
  else if ¬ checkOk (sqlBetween conf 0 1) then Except.error DbError.checkViolation
  else if ¬ checkOk (sqlGe ms 0) then Except.error DbError.checkViolation
  else
    Except.ok { s with
      experiment_results := s.experiment_results ++
        [{ result_id := s.next_result_id, experiment_id := eid, attack_id := aid
           is_detected := det, confidence := conf, detection_time_ms := ms }]
      next_result_id := s.next_result_id + 1 }

/-- One INSERT statement of the demo script, tagged by target table. -/
inductive SqlStmt
  | modelRow (name version : String) (descr : Option String) (act : Bool)
  | attackRow (source target : String) (ty : AttackType)
      (packets duration : Option Int) (ports : Option (List Int))
  | experimentRow (name : String) (mid : Option Nat) (total det : Option Int)
  | resultRow (eid aid : Nat) (det : Bool) (conf : Option Rat) (ms : Option Int)
deriving DecidableEq, Repr

/-- Execute one INSERT against the current state. -/
def execStmt (s : DBState) : SqlStmt → Except DbError DBState
  | SqlStmt.modelRow n v d a => insertAIModel s n v d a
  | SqlStmt.attackRow src tgt ty p dur ports => insertAttack s src tgt ty p dur ports
  | SqlStmt.experimentRow n mid tot det => insertExperiment s n mid tot det
  | SqlStmt.resultRow eid aid det conf ms => insertResult s eid aid det conf ms

/-- Execute a list of INSERTs in order, stopping at the first failure. -/
def execStmts (s : DBState) : List SqlStmt → Except DbError DBState
  | [] => Except.ok s
  | st :: rest =>
      match execStmt s st with
      | Except.error e => Except.error e
      | Except.ok s' => execStmts s' rest

/-- The rational 0.99, the first demo confidence value. -/
def conf99 : Rat := ⟨99, 100, by decide, by decide⟩

/-- The rational 0.85, the second demo confidence value. -/
def conf85 : Rat := ⟨17, 20, by decide, by decide⟩

/-- The rational 0.10, the third demo confidence value. -/
def conf10 : Rat := ⟨1, 10, by decide, by decide⟩

/-- The fixed demo dataset inserted by `insert_demo_data` (database.py
lines 95-119), row by row, in the statement order of the source: three
ai_models rows, three ddos_attacks rows, one experiments row, three
experiment_results rows. -/
def demoScript : List SqlStmt :=
  [ SqlStmt.modelRow "DeepPacket" "1.2.0" (some "CNN для анализа сетевых пакетов") true
  , SqlStmt.modelRow "FlowAnalyzer" "2.1.5" (some "RNN для анализа сетевых потоков") true
  , SqlStmt.modelRow "LegacyDetector" "0.9.1" (some "Старая модель на основе правил") false
  , SqlStmt.attackRow "192.168.1.100" "10.0.0.50" AttackType.udp_flood
      (some 10000) (some 60) (some [80, 443])
  , SqlStmt.attackRow "fe80::1" "2001:db8::1" AttackType.http_flood
      (some 50000) (some 120) (some [8080])
  , SqlStmt.attackRow "172.16.0.10" "10.0.0.100" AttackType.syn_flood
      (some 75000) (some 30) (some [22, 3389])
  , SqlStmt.experimentRow "Test Run #1 - DeepPacket" (some 1) (some 3) (some 2)
  , SqlStmt.resultRow 1 1 true (some conf99) (some 150)
  , SqlStmt.resultRow 1 2 true (some conf85) (some 220)
  , SqlStmt.resultRow 1 3 false (some conf10) (some 50)
  ]

/-- The body of `insert_demo_data`'s `try` block: the whole demo batch as
one transaction attempt. -/
def seedAttempt (s : DBState) : Except DbError DBState :=
  execStmts s demoScript

/-- `insert_demo_data(conn)` (database.py lines 91-127): runs the demo
batch; on success commits and returns True, on any failure rolls the
whole transaction back (state unchanged) and returns False.  The function
performs no emptiness pre-check of any table.  `insert_demo_data_sa`
(main.py lines 160-187) has the same structure over `engine.begin()`. -/
def insert_demo_data (s : DBState) : DBState × Bool :=
  match seedAttempt s with
  | Except.ok s' => (s', true)
  | Except.error _ => (s, false)

example : (insert_demo_data emptyDB).2 = true := by decide
example : (insert_demo_data emptyDB).1.ai_models.length = 3 := by decide
example : (insert_demo_data emptyDB).1.experiment_results.length = 3 := by decide
example : (insert_demo_data (insert_demo_data emptyDB).1).2 = false := by decide

/-!
Schema catalog: which of the five schema objects currently exist.  The
psycopg2 routine `create_tables` (database.py lines 37-89) creates each
object only if absent (`CREATE TABLE IF NOT EXISTS`, and a `pg_type`
existence check for the enumeration); the SQLAlchemy routine
`drop_and_create_schema_sa` (main.py lines 150-158) first drops
everything (`md.drop_all`) and then re-creates it (`md.create_all`).
-/

/-- Existence flags of the `attack_type` enumeration and the four tables. -/
structure CatalogState where
  attack_type_enum : Bool
  ai_models : Bool
  experiments : Bool
  ddos_attacks : Bool
  experiment_results : Bool
deriving DecidableEq, Repr

/-- The catalog in which all five schema objects exist. -/
def fullCatalog : CatalogState :=
  { attack_type_enum := true, ai_models := true, experiments := true
    ddos_attacks := true, experiment_results := true }

/-- A whole database: the catalog plus the rows of the four tables. -/
structure PgDatabase where
  catalog : CatalogState
  data : DBState
deriving DecidableEq, Repr

/-- The success path of `create_tables` (database.py lines 37-89): each
object is created only if absent; a table that already exists keeps its
rows and serial counter, a freshly created table starts empty. -/
def create_tables_ok (d : PgDatabase) : PgDatabase :=
  { catalog := fullCatalog
    data :=
      { ai_models := if d.catalog.ai_models then d.data.ai_models else []
        experiments := if d.catalog.experiments then d.data.experiments else []
        ddos_attacks := if d.catalog.ddos_attacks then d.data.ddos_attacks else []
        experiment_results :=
          if d.catalog.experiment_results then d.data.experiment_results else []
        next_model_id := if d.catalog.ai_models then d.data.next_model_id else 1
        next_experiment_id :=
          if d.catalog.experiments then d.data.next_experiment_id else 1
        next_attack_id := if d.catalog.ddos_attacks then d.data.next_attack_id else 1
        next_result_id :=
          if d.catalog.experiment_results then d.data.next_result_id else 1 } }

/-- `create_tables(conn)` (database.py lines 37-89) through
`execute_sql_script` (lines 24-35): on an environment failure the script
raises, the transaction is rolled back (database unchanged) and False is
returned; otherwise the DDL runs and True is returned. -/
def create_tables (d : PgDatabase) (envFail : Bool) : PgDatabase × Bool :=
  if envFail then (d, false) else (create_tables_ok d, true)

/-- `drop_and_create_schema_sa(engine, md)` (main.py lines 150-158): on
success it executes `md.drop_all` followed by `md.create_all`, leaving a
full catalog over four empty tables; on failure it reports the error and
returns False. -/
def drop_and_create_schema_sa (d : PgDatabase) (envFail : Bool) : PgDatabase × Bool :=
  if envFail then (d, false)
  else ({ catalog := fullCatalog, data := emptyDB }, true)

/-!
Connection and transaction status, for the psycopg2 stack.  psycopg2 runs
without autocommit: a failed statement leaves the connection's transaction
in the aborted state until an explicit `rollback()` or `commit()`.  The
routines in database.py that call `conn.rollback()` in their `except`
branch (`execute_sql_script`, `insert_demo_data`) return the connection to
idle; `fetch_data` (lines 129-139) catches the exception but performs no
rollback, so the aborted transaction survives the call.
-/

/-- Transaction status of a psycopg2 connection. -/
inductive TxStatus
  | idle
  | inTransaction
  | aborted
deriving DecidableEq, Repr

/-- An open psycopg2 connection: the database it talks to and its
transaction status. -/
structure PgConn where
  db : DBState
  tx : TxStatus
deriving DecidableEq, Repr

/-- `conn.rollback()`: the transaction status returns to idle. -/
def PgConn.rollback (c : PgConn) : PgConn :=
  { c with tx := TxStatus.idle }

/-- `conn.commit()`: the transaction status returns to idle. -/
def PgConn.commit (c : PgConn) : PgConn :=
  { c with tx := TxStatus.idle }

/-- `insert_demo_data(conn)` at the connection level: commits on success,
calls `conn.rollback()` in the `except` branch. -/
def insert_demo_data_conn (c : PgConn) : PgConn × Bool :=
  match seedAttempt c.db with
  | Except.ok s' => ({ db := s', tx := TxStatus.idle }, true)
  | Except.error _ => (PgConn.rollback c, false)

/-!
Row fetching and the tabular adapter.  `fetch_data(conn, table_name)`
(database.py lines 129-139) runs `SELECT * FROM table`, returning the
column names and all rows; on any exception it logs and returns the pair
`([], [])` — it neither rolls back nor re-raises, so its caller cannot
distinguish a failed fetch from an empty table.
`PostgreSQLTableModel` (models.py) caches the last `(columns, rows)` pair
and exposes rowCount / columnCount / str-rendered cells.
-/

/-- A cell value as returned by the driver, with its Python `str`
rendering. -/
inductive PgValue
  | vint (i : Int)
  | vstr (s : String)
  | vbool (b : Bool)
  | vnull
  | vports (l : List Int)
  | vrat (q : Rat)
  | venum (a : AttackType)
deriving DecidableEq, Repr

/-- Python `str()` applied to a fetched cell. -/
def PgValue.render : PgValue → String
  | PgValue.vint i => toString i
  | PgValue.vstr s => s
  | PgValue.vbool b => if b then "True" else "False"
  | PgValue.vnull => "None"
  | PgValue.vports l => toString l
  | PgValue.vrat q => toString q
  | PgValue.venum AttackType.udp_flood => "udp_flood"
  | PgValue.venum AttackType.icmp_flood => "icmp_flood"
  | PgValue.venum AttackType.http_flood => "http_flood"
  | PgValue.venum AttackType.syn_flood => "syn_flood"

/-- A nullable string cell. -/
def optStrValue : Option String → PgValue
  | none => PgValue.vnull
  | some s => PgValue.vstr s

/-- A nullable integer cell. -/
def optIntValue : Option Int → PgValue
  | none => PgValue.vnull
  | some i => PgValue.vint i

/-- The cells of an `ai_models` row, in column order. -/
def aiModelRowValues (r : AIModelRow) : List PgValue :=
  [PgValue.vint r.model_id, PgValue.vstr r.name, PgValue.vstr r.version,
   optStrValue r.description, PgValue.vbool r.is_active]

/-- The cells of an `experiments` row, in modelled column order. -/
def experimentRowValues (r : ExperimentRow) : List PgValue :=
  [PgValue.vint r.experiment_id, PgValue.vstr r.name,
   optIntValue r.total_attacks, optIntValue r.detected_attacks,
   match r.model_id with | none => PgValue.vnull | some m => PgValue.vint m]

/-- The cells of a `ddos_attacks` row, in modelled column order. -/
def attackRowValues (r : AttackRow) : List PgValue :=
  [PgValue.vint r.attack_id, PgValue.vstr r.source_ip, PgValue.vstr r.target_ip,
   PgValue.venum r.attack_type, optIntValue r.packet_count,
   optIntValue r.duration_seconds,
   match r.target_ports with | none => PgValue.vnull | some l => PgValue.vports l]

/-- The cells of an `experiment_results` row, in column order. -/
def resultRowValues (r : ResultRow) : List PgValue :=
  [PgValue.vint r.result_id, PgValue.vint r.experiment_id, PgValue.vint r.attack_id,
   PgValue.vbool r.is_detected,
   match r.confidence with | none => PgValue.vnull | some q => PgValue.vrat q,
   optIntValue r.detection_time_ms]

/-- The `SELECT * FROM table_name` underlying `fetch_data`: succeeds on
the four known tables with their column names and rows, fails with an
undefined-table error otherwise. -/
def runSelectAll (db : DBState) (table : String) :
    Except DbError (List String × List (List PgValue)) :=
  if table = "ai_models" then
    Except.ok (["model_id", "name", "version", "description", "is_active"],
      db.ai_models.map aiModelRowValues)
  else if table = "experiments" then
    Except.ok (["experiment_id", "name", "total_attacks", "detected_attacks", "model_id"],
      db.experiments.map experimentRowValues)
  else if table = "ddos_attacks" then
    Except.ok (["attack_id", "source_ip", "target_ip", "attack_type",
      "packet_count", "duration_seconds", "target_ports"],
      db.ddos_attacks.map attackRowValues)
  else if table = "experiment_results" then
    Except.ok (["result_id", "experiment_id", "attack_id", "is_detected",
      "confidence", "detection_time_ms"],
      db.experiment_results.map resultRowValues)
  else Except.error DbError.undefinedTable

/-- `fetch_data(conn, table_name)` (database.py lines 129-139): on an
aborted transaction any statement fails at once; a successful SELECT
leaves the connection inside an open transaction; on any failure the
`except` branch returns `([], [])` without rolling back, leaving the
transaction aborted. -/
def fetch_data (c : PgConn) (table : String) :
    PgConn × List String × List (List PgValue) :=
  if c.tx = TxStatus.aborted then ({ c with tx := TxStatus.aborted }, [], [])
  else
    match runSelectAll c.db table with
    | Except.ok (cols, rows) => ({ c with tx := TxStatus.inTransaction }, cols, rows)
    | Except.error _ => ({ c with tx := TxStatus.aborted }, [], [])

/-- The cached state of `PostgreSQLTableModel` (models.py lines 5-33):
the last `(columns, rows)` pair obtained from `fetch_data`. -/
structure PostgreSQLTableModel where
  columns : List String
  rows : List (List PgValue)
deriving DecidableEq, Repr

/-- `PostgreSQLTableModel.refresh` (models.py lines 14-17): re-runs
`fetch_data` and swaps the whole cached pair; the previous cache does not
influence the result (begin/endResetModel marks a full reset). -/
def PostgreSQLTableModel.refresh (_m : PostgreSQLTableModel) (c : PgConn)
    (table : String) : PgConn × PostgreSQLTableModel :=
  let out := fetch_data c table
  (out.1, { columns := out.2.1, rows := out.2.2 })

/-- `rowCount` (models.py line 19). -/
def PostgreSQLTableModel.rowCount (m : PostgreSQLTableModel) : Nat :=
  m.rows.length

/-- `columnCount` (models.py line 22). -/
def PostgreSQLTableModel.columnCount (m : PostgreSQLTableModel) : Nat :=
  m.columns.length

/-- `data` at a valid (row, column) index under the display role
(models.py lines 25-28): `str(self.rows[row][column])`. -/
def PostgreSQLTableModel.dataAt (m : PostgreSQLTableModel) (r c : Nat) :
    Option String :=
  match m.rows[r]? with
  | none => none
  | some row =>
      match row[c]? with
      | none => none
      | some cell => some cell.render

/-!
Delete operations, with the referential actions declared in the DDL
(database.py lines 64, 80-81 and main.py lines 117, 135-136):
`experiments.model_id` is ON DELETE SET NULL, both foreign keys of
`experiment_results` are ON DELETE CASCADE.
-/

/-- `DELETE FROM ai_models WHERE model_id = mid`: referencing experiments
keep their row but their `model_id` becomes NULL. -/
def delete_model (s : DBState) (mid : Nat) : DBState :=
  { s with
    ai_models := s.ai_models.filter (fun r => r.model_id != mid)
    experiments := s.experiments.map (fun e =>
      if e.model_id == some mid then { e with model_id := none } else e) }

/-- `DELETE FROM experiments WHERE experiment_id = eid`: every
experiment_results row referencing it is cascade-deleted. -/
def delete_experiment (s : DBState) (eid : Nat) : DBState :=
  { s with
    experiments := s.experiments.filter (fun e => e.experiment_id != eid)
    experiment_results :=
      s.experiment_results.filter (fun r => r.experiment_id != eid) }

/-- `DELETE FROM ddos_attacks WHERE attack_id = aid`: every
experiment_results row referencing it is cascade-deleted. -/
def delete_attack (s : DBState) (aid : Nat) : DBState :=
  { s with
    ddos_attacks := s.ddos_attacks.filter (fun a => a.attack_id != aid)
    experiment_results :=
      s.experiment_results.filter (fun r => r.attack_id != aid) }

/-- `DELETE FROM experiment_results WHERE result_id = rid`. -/
def delete_result (s : DBState) (rid : Nat) : DBState :=
  { s with
    experiment_results := s.experiment_results.filter (fun r => r.result_id != rid) }

/-- Run one INSERT as its own transaction: on failure the transaction is
rolled back and the state unchanged, as every form controller does. -/
def applyStmt (s : DBState) (st : SqlStmt) : DBState :=
  match execStmt s st with
  | Except.ok s' => s'
  | Except.error _ => s

/-- A database state reachable from a fresh schema through the operations
the application issues: seeding, the four single-row form INSERTs, and
the four delete operations. -/
inductive ReachableDB : DBState → Prop
  | init : ReachableDB emptyDB
  | seed (s : DBState) : ReachableDB s → ReachableDB (insert_demo_data s).1
  | form_insert (s : DBState) (st : SqlStmt) :
      ReachableDB s → ReachableDB (applyStmt s st)
  | del_model (s : DBState) (mid : Nat) :
      ReachableDB s → ReachableDB (delete_model s mid)
  | del_experiment (s : DBState) (eid : Nat) :
      ReachableDB s → ReachableDB (delete_experiment s eid)
  | del_attack (s : DBState) (aid : Nat) :
      ReachableDB s → ReachableDB (delete_attack s aid)
  | del_result (s : DBState) (rid : Nat) :
      ReachableDB s → ReachableDB (delete_result s rid)

/-- Referential integrity of `experiment_results`: every row's
`experiment_id` and `attack_id` name an existing parent row. -/
def refIntegrityB (s : DBState) : Bool :=
  s.experiment_results.all (fun r =>
    s.experiments.any (fun e => e.experiment_id == r.experiment_id) &&
    s.ddos_attacks.any (fun a => a.attack_id == r.attack_id))

/-!
Form controllers.  `AIModelsTab.add_model` exists in both stacks
(widgets.py lines 88-118, main.py lines 277-303) with the same behaviour:
trim the inputs, reject empty name/version locally, run one INSERT in a
transaction, roll back and show an error box on a database failure.
`AttacksTab.add_attack` differs between the stacks: the SQLAlchemy
version (main.py lines 373-417) parses the port list inside `try`,
rejects a `ValueError` and rejects out-of-range ports; the psycopg2
version (widgets.py lines 204-235) parses the port list with no
surrounding `try` and performs no range check at all.
-/

/-- A Python whitespace character, as `str.strip()` removes. -/
def isPySpace (c : Char) : Bool :=
  c == ' ' || c == '\t' || c == '\n' || c == '\r'

/-- Python `str.strip()` on the character list. -/
def pyStripChars (l : List Char) : List Char :=
  ((l.dropWhile isPySpace).reverse.dropWhile isPySpace).reverse

/-- Python `str.strip()`. -/
def pyStrip (s : String) : String :=
  String.mk (pyStripChars s.data)

/-- Split a character list at every comma, keeping empty pieces, as
Python `str.split(',')` does. -/
def splitCommaChars : List Char → List (List Char)
  | [] => [[]]
  | c :: rest =>
      if c == ',' then [] :: splitCommaChars rest
      else
        match splitCommaChars rest with
        | [] => [[c]]
        | h :: t => (c :: h) :: t

/-- Python `str.split(',')`. -/
def pySplitComma (s : String) : List String :=
  (splitCommaChars s.data).map String.mk

/-- Outcome of a form submission as seen by the operator. -/
inductive FormOutcome
  | added
  | inputError (msg : String)
  | dbError (msg : String)
  | uncaughtValueError
deriving DecidableEq, Repr

/-- `AIModelsTab.add_model` (widgets.py lines 88-118; main.py lines
277-303 behaves identically): reject empty trimmed name/version, then one
INSERT; a constraint violation rolls back and reports an error box. -/
def add_model (s : DBState) (nameText versionText descText : String)
    (act : Bool) : DBState × FormOutcome :=
  let name := pyStrip nameText
  let version := pyStrip versionText
  let descr := pyStrip descText
  if name = "" ∨ version = "" then
    (s, FormOutcome.inputError "Название и версия обязательны")
  else
    match insertAIModel s name version (some descr) act with
    | Except.ok s' => (s', FormOutcome.added)
    | Except.error _ =>
        (s, FormOutcome.dbError "Модель с таким именем и версией уже существует")

/-- Python `int(token)` on a stripped token: optional sign followed by at
least one decimal digit; anything else raises ValueError (`none`). -/
def pyIntDigits (l : List Char) : Option Nat :=
  if l = [] then none
  else
    l.foldl (fun acc c =>
      match acc with
      | none => none
      | some a => if c.isDigit then some (a * 10 + (c.toNat - 48)) else none)
      (some 0)

/-- Python `int(s)` restricted to the plain decimal forms the port field
can hold. -/
def pyInt (s : String) : Option Int :=
  match pyStripChars s.data with
  | [] => none
  | '+' :: rest => (pyIntDigits rest).map (fun n => (n : Int))
  | '-' :: rest => (pyIntDigits rest).map (fun n => -(n : Int))
  | l => (pyIntDigits l).map (fun n => (n : Int))

/-- The port-list comprehension
`[int(port.strip()) for port in ports_text.split(',') if port.strip()]`:
blank tokens are skipped, every other token is parsed by `int`, and a
single bad token raises ValueError for the whole list (`none`). -/
def parsePorts (text : String) : Option (List Int) :=
  (((pySplitComma text).map pyStrip).filter (fun t => t ≠ "")).mapM pyInt

/-- Is a parsed port outside [1, 65535]?  This is the test
`port <= 0 or port > 65535` of main.py line 387. -/
def portOutOfRange (p : Int) : Bool :=
  p ≤ 0 || 65535 < p

/-- `AttacksTab.add_attack` of the SQLAlchemy stack (main.py lines
373-417): parse the port list inside `try` (ValueError rejected with a
message), reject any port outside [1, 65535], reject empty IPs, then one
INSERT with rollback-and-report on failure. -/
def add_attack_sa (s : DBState) (sourceText targetText : String)
    (ty : AttackType) (packets duration : Int) (portsText : String) :
    DBState × FormOutcome :=
  let source := pyStrip sourceText
  let target := pyStrip targetText
  let ports_text := pyStrip portsText
  match (if ports_text = "" then some none else (parsePorts ports_text).map some) with
  | none =>
      (s, FormOutcome.inputError
        "Некорректный формат портов. Используйте числа, разделенные запятыми")
  | some target_ports =>
      if (match target_ports with
          | none => false
          | some tps => !tps.isEmpty && tps.any portOutOfRange) then
        (s, FormOutcome.inputError "Порты должны быть в диапазоне 1-65535")
      else if source = "" ∨ target = "" then
        (s, FormOutcome.inputError "Source IP и Target IP обязательны")
      else
        match insertAttack s source target ty (some packets) (some duration)
            target_ports with
        | Except.ok s' => (s', FormOutcome.added)
        | Except.error _ => (s, FormOutcome.dbError "Нарушение ограничений базы данных")

/-- `AttacksTab.add_attack` of the psycopg2 stack (widgets.py lines
204-235): the port list is parsed before any `try` block, so a bad token
raises an uncaught ValueError; parsed ports undergo no range check and go
straight into the INSERT. -/
def add_attack_w (s : DBState) (sourceText targetText : String)
    (ty : AttackType) (packets duration : Int) (portsText : String) :
    DBState × FormOutcome :=
  let source := pyStrip sourceText
  let target := pyStrip targetText
  let ports_text := pyStrip portsText
  match (if ports_text = "" then some none else (parsePorts ports_text).map some) with
  | none => (s, FormOutcome.uncaughtValueError)
  | some target_ports =>
      if source = "" ∨ target = "" then
        (s, FormOutcome.inputError "IP адреса обязательны")
      else
        match insertAttack s source target ty (some packets) (some duration)
            target_ports with
        | Except.ok s' => (s', FormOutcome.added)
        | Except.error _ => (s, FormOutcome.dbError "Ошибка при добавлении")

/-!
Python module loading.  `from M import a, b, ...` resolves each name
against the attributes of module M (its top-level definitions and the
names it imported); the first unresolvable name raises ImportError and
aborts the module being loaded.  A name referenced at run time that is
bound nowhere in scope raises NameError at its first use.  Third-party
modules (PySide6, psycopg2, sqlalchemy, datetime) are assumed installed;
only the repository's own modules are modelled.
-/

/-- The attributes of the `database` module: its imports (database.py
lines 2-5) and its five function definitions (no
`drop_and_recreate_tables` among them). -/
def databaseModuleAttrs : List String :=
  ["psycopg2", "sql", "errors", "logging", "PgConfig",
   "create_connection", "execute_sql_script", "create_tables",
   "insert_demo_data", "fetch_data"]

/-- The attributes of the `models` module (models.py). -/
def modelsModuleAttrs : List String :=
  ["Qt", "QAbstractTableModel", "QModelIndex", "fetch_data",
   "PostgreSQLTableModel"]

/-- The attributes of the `styles` module (styles.py). -/
def stylesModuleAttrs : List String :=
  ["QPushButton", "QGroupBox", "QTableView", "QColor", "STYLES",
   "create_styled_button", "create_group_box", "create_table",
   "get_app_stylesheet"]

/-- The attributes of the `config` module (config.py). -/
def configModuleAttrs : List String :=
  ["dataclass", "Dict", "Any", "logging", "PgConfig", "setup_logging",
   "STYLES"]

/-- Result of loading a module or executing a Python body. -/
inductive PyResult
  | ok
  | importError (missing : String)
  | nameError (missing : String)
deriving DecidableEq, Repr

/-- One `from M import names` statement: the first name absent from the
module's attributes raises ImportError. -/
def importFrom (attrs names : List String) : PyResult :=
  match names.find? (fun n => !(attrs.contains n)) with
  | none => PyResult.ok
  | some n => PyResult.importError n

/-- Run a sequence of import statements in order, stopping at the first
failure. -/
def runImports : List (List String × List String) → PyResult
  | [] => PyResult.ok
  | (attrs, names) :: rest =>
      match importFrom attrs names with
      | PyResult.ok => runImports rest
      | r => r

/-- The repository-local import statements of widgets.py in source order:
line 9 (`from database import ...`), line 10 (`from models import ...`),
line 11 (`from styles import ...`), line 12 (`from config import ...`),
and line 14 (`from database import ..., drop_and_recreate_tables`). -/
def widgetsModuleLoad : PyResult :=
  runImports
    [ (databaseModuleAttrs, ["create_tables", "insert_demo_data", "create_connection"])
    , (modelsModuleAttrs, ["PostgreSQLTableModel"])
    , (stylesModuleAttrs, ["create_styled_button", "create_group_box", "create_table"])
    , (configModuleAttrs, ["STYLES", "PgConfig"])
    , (databaseModuleAttrs,
        ["create_tables", "insert_demo_data", "create_connection",
         "drop_and_recreate_tables"]) ]

/-- Can any class defined in widgets.py (the form tabs or SetupTab) be
constructed?  Only if the module itself loads. -/
def widgetsClassesConstructible : Bool :=
  match widgetsModuleLoad with
  | PyResult.ok => true
  | _ => false

/-- The global names bound at the top level of main.py: its imports
(lines 6-34) and its module-level definitions.  `QDoubleSpinBox` is not
among them. -/
def mainModuleGlobals : List String :=
  ["sys", "dataclass", "Optional", "List", "Dict", "Any", "Tuple",
   "datetime", "faulthandler", "psycopg2",
   "Qt", "QAbstractTableModel", "QModelIndex",
   "QApplication", "QMainWindow", "QWidget", "QTabWidget", "QVBoxLayout",
   "QHBoxLayout", "QFormLayout", "QLabel", "QLineEdit", "QPushButton",
   "QMessageBox", "QSpinBox", "QComboBox", "QCheckBox", "QTextEdit",
   "QTableView", "QGroupBox",
   "create_engine", "MetaData", "Table", "Column", "Integer", "String",
   "DateTime", "ForeignKey", "UniqueConstraint", "CheckConstraint",
   "select", "insert", "delete", "Text", "Boolean", "Float", "func",
   "ARRAY", "ENUM", "Engine", "URL", "IntegrityError", "SQLAlchemyError",
   "PgConfig", "make_engine", "build_metadata", "drop_and_create_schema_sa",
   "insert_demo_data_sa", "SATableModel", "AIModelsTab", "AttacksTab",
   "ExperimentsTab", "ResultsTab", "MainWindow"]

/-- The global names `ResultsTab.__init__` (main.py lines 552-594) looks
up, in execution order; `QDoubleSpinBox` (line 561) is reached after the
combo boxes and the check box. -/
def resultsTabInitGlobals : List String :=
  ["SATableModel", "QComboBox", "QComboBox", "QCheckBox", "QDoubleSpinBox",
   "QSpinBox", "QFormLayout", "QPushButton", "QPushButton", "QHBoxLayout",
   "QTableView", "QVBoxLayout"]

/-- The global names `AIModelsTab.__init__` (main.py lines 239-275) looks
up, in execution order. -/
def aiModelsTabInitGlobals : List String :=
  ["SATableModel", "QLineEdit", "QLineEdit", "QTextEdit", "QCheckBox",
   "QFormLayout", "QPushButton", "QPushButton", "QHBoxLayout",
   "QTableView", "QVBoxLayout"]

/-- The global names `AttacksTab.__init__` (main.py lines 329-371) looks
up, in execution order. -/
def attacksTabInitGlobals : List String :=
  ["SATableModel", "QLineEdit", "QLineEdit", "QComboBox", "QSpinBox",
   "QSpinBox", "QLineEdit", "QFormLayout", "QPushButton", "QPushButton",
   "QHBoxLayout", "QTableView", "QVBoxLayout"]

/-- The global names `ExperimentsTab.__init__` (main.py lines 443-481)
looks up, in execution order. -/
def experimentsTabInitGlobals : List String :=
  ["SATableModel", "QLineEdit", "QComboBox", "QSpinBox", "QSpinBox",
   "QFormLayout", "QPushButton", "QPushButton", "QHBoxLayout",
   "QTableView", "QVBoxLayout"]

/-- Execute a body that looks up the given global names in order: the
first name not bound in main.py's globals raises NameError. -/
def runBody (names : List String) : PyResult :=
  match names.find? (fun n => !(mainModuleGlobals.contains n)) with
  | none => PyResult.ok
  | some n => PyResult.nameError n

/-- `MainWindow.create_tabs` with a live engine (main.py lines 726-737):
constructs the four tabs in order; the first constructor that raises
aborts the whole call. -/
def create_tabs_sa : PyResult :=
  match runBody aiModelsTabInitGlobals with
  | PyResult.ok =>
      match runBody attacksTabInitGlobals with
      | PyResult.ok =>
          match runBody experimentsTabInitGlobals with
          | PyResult.ok => runBody resultsTabInitGlobals
          | r => r
      | r => r
  | r => r

/-!
Claims C9 and C10: dead-code safety facts about the two UI stacks.
-/

/-- C9: importing the widgets module always fails with an ImportError,
because widgets.py line 14 imports `drop_and_recreate_tables` from the
database module, which defines no such name; consequently no form tab or
SetupTab defined in widgets.py can ever be constructed. -/
theorem C9_widgets_import_fails :
    widgetsModuleLoad = PyResult.importError "drop_and_recreate_tables" ∧
    ("drop_and_recreate_tables" ∈ databaseModuleAttrs → False) ∧
    widgetsClassesConstructible = false := by
  refine ⟨by decide, by decide, by decide⟩

/-- C10: constructing the ResultsTab in main.py raises a NameError,
because `QDoubleSpinBox` (line 561) is bound by no import of main.py;
hence `create_tabs` — reached by every successful connect — fails when it
reaches the Results tab. -/
theorem C10_results_tab_name_error :
    runBody resultsTabInitGlobals = PyResult.nameError "QDoubleSpinBox" ∧
    ("QDoubleSpinBox" ∈ mainModuleGlobals → False) ∧
    create_tabs_sa = PyResult.nameError "QDoubleSpinBox" := by
  refine ⟨by decide, by decide, by decide⟩

/-!
Claim C1 counterexample: seed loading performs no emptiness pre-check.
On a state whose model table is non-empty (one unrelated row), the claim
says the operation performs no inserts and reports "already seeded" — but
`insert_demo_data` inserts the full demo batch and reports success.
-/

/-- A database whose model table already holds one (non-demo) row. -/
def nonEmptyModelsDB : DBState :=
  { ai_models := [{ model_id := 1, name := "X", version := "1"
                    description := none, is_active := true }]
    experiments := [], ddos_attacks := [], experiment_results := []
    next_model_id := 2, next_experiment_id := 1, next_attack_id := 1
    next_result_id := 1 }

/-- C1 is false as stated: with the model table non-empty,
`insert_demo_data` does not no-op — it performs the inserts (the model
table grows from 1 to 4 rows) and reports success rather than
"already seeded". -/
theorem C1_counterexample :
    nonEmptyModelsDB.ai_models ≠ [] ∧
    (insert_demo_data nonEmptyModelsDB).2 = true ∧
    (insert_demo_data nonEmptyModelsDB).1.ai_models.length = 4 ∧
    (insert_demo_data nonEmptyModelsDB).1 ≠ nonEmptyModelsDB := by
  refine ⟨by decide, by decide, by decide, by decide⟩

/-!
Claim C2 counterexample: the SQLAlchemy schema-creation routine cited by
the claim, `drop_and_create_schema_sa`, drops every existing table before
re-creating the schema, so existing rows do not survive it.
-/

/-- A database with a full catalog whose tables hold the demo rows. -/
def populatedDatabase : PgDatabase :=
  { catalog := fullCatalog, data := (insert_demo_data emptyDB).1 }

/-- C2 is false as stated for `drop_and_create_schema_sa`: on a database
where all four tables exist and `ai_models` is non-empty, the successful
run destroys the existing rows instead of leaving them untouched. -/
theorem C2_counterexample :
    populatedDatabase.catalog.ai_models = true ∧
    populatedDatabase.data.ai_models ≠ [] ∧
    (drop_and_create_schema_sa populatedDatabase false).2 = true ∧
    (drop_and_create_schema_sa populatedDatabase false).1.data.ai_models = [] := by
  refine ⟨by decide, by decide, by decide, by decide⟩

/-!
Claim C7 counterexample: the psycopg2 attack form cited by the claim,
`AttacksTab.add_attack` in widgets.py, validates no port range and parses
outside any try block.
-/

/-- C7 is false as stated for the widgets.py attack form: the out-of-range
port 70000 is not rejected — the INSERT is issued and succeeds — and a
non-numeric token raises an uncaught ValueError instead of a message. -/
theorem C7_counterexample :
    portOutOfRange 70000 = true ∧
    (add_attack_w emptyDB "10.0.0.1" "10.0.0.50" AttackType.udp_flood
      1000 60 "70000").2 = FormOutcome.added ∧
    (add_attack_w emptyDB "10.0.0.1" "10.0.0.50" AttackType.udp_flood
      1000 60 "70000").1.ddos_attacks.length = 1 ∧
    (add_attack_w emptyDB "10.0.0.1" "10.0.0.50" AttackType.udp_flood
      1000 60 "abc").2 = FormOutcome.uncaughtValueError := by
  refine ⟨by decide, by decide, by decide, by decide⟩

/-!
Claim C8 counterexample: the row fetch used by the tabular adapter's
refresh catches failures but does not roll the transaction back — the
connection is left in the aborted state — and returns `([], [])`, which
is exactly what a successful fetch of an empty unknown-free table returns,
so nothing is surfaced to the operator.
-/

/-- C8 is false as stated for `fetch_data`: a failing fetch (undefined
table) leaves the transaction aborted instead of rolled back to idle, and
its return value is the silent pair `([], [])`. -/
theorem C8_counterexample :
    (fetch_data { db := emptyDB, tx := TxStatus.idle } "no_such_table").1.tx
      = TxStatus.aborted ∧
    (fetch_data { db := emptyDB, tx := TxStatus.idle } "no_such_table").2
      = (([] : List String), ([] : List (List PgValue))) := by
  refine ⟨by decide, by decide⟩

/-!
Helper lemmas about the seed transaction.
-/

/-- Number of `ai_models` rows one statement inserts. -/
def stmtModelCount : SqlStmt → Nat
  | SqlStmt.modelRow _ _ _ _ => 1
  | _ => 0

/-- Number of `ddos_attacks` rows one statement inserts. -/
def stmtAttackCount : SqlStmt → Nat
  | SqlStmt.attackRow _ _ _ _ _ _ => 1
  | _ => 0

/-- Number of `experiments` rows one statement inserts. -/
def stmtExperimentCount : SqlStmt → Nat
  | SqlStmt.experimentRow _ _ _ _ => 1
  | _ => 0

/-- Number of `experiment_results` rows one statement inserts. -/
def stmtResultCount : SqlStmt → Nat
  | SqlStmt.resultRow _ _ _ _ _ => 1
  | _ => 0

/-- A successful INSERT grows each table by exactly its statement count. -/
theorem execStmt_ok_lengths {s s' : DBState} {st : SqlStmt}
    (h : execStmt s st = Except.ok s') :
    s'.ai_models.length = s.ai_models.length + stmtModelCount st ∧
    s'.ddos_attacks.length = s.ddos_attacks.length + stmtAttackCount st ∧
    s'.experiments.length = s.experiments.length + stmtExperimentCount st ∧
    s'.experiment_results.length = s.experiment_results.length + stmtResultCount st := by
  cases st <;>
    simp only [execStmt, insertAIModel, insertAttack, insertExperiment,
      insertResult] at h <;>
    repeat' split at h
  all_goals
    first
      | (injection h with h
         subst h
         simp [stmtModelCount, stmtAttackCount, stmtExperimentCount, stmtResultCount])
      | simp at h

/-- A successful INSERT batch grows each table by the sum of its
statement counts. -/
theorem execStmts_ok_lengths {l : List SqlStmt} : ∀ {s s' : DBState},
    execStmts s l = Except.ok s' →
    s'.ai_models.length = s.ai_models.length + (l.map stmtModelCount).sum ∧
    s'.ddos_attacks.length = s.ddos_attacks.length + (l.map stmtAttackCount).sum ∧
    s'.experiments.length = s.experiments.length + (l.map stmtExperimentCount).sum ∧
    s'.experiment_results.length
      = s.experiment_results.length + (l.map stmtResultCount).sum := by
  induction l with
  | nil =>
      intro s s' h
      injection h with h
      subst h
      simp
  | cons st rest ih =>
      intro s s' h
      rw [execStmts] at h
      split at h
      · exact absurd h (by simp)
      next s1 heq =>
        obtain ⟨h1, h2, h3, h4⟩ := execStmt_ok_lengths heq
        obtain ⟨g1, g2, g3, g4⟩ := ih h
        refine ⟨?_, ?_, ?_, ?_⟩ <;> simp [g1, g2, g3, g4, h1, h2, h3, h4] <;> omega

/-- A successful INSERT only ever appends to `ai_models`. -/
theorem execStmt_models_mono {s s' : DBState} {st : SqlStmt}
    (h : execStmt s st = Except.ok s') :
    ∃ suf, s'.ai_models = s.ai_models ++ suf := by
  cases st <;>
    simp only [execStmt, insertAIModel, insertAttack, insertExperiment,
      insertResult] at h <;>
    repeat' split at h
  all_goals
    first
      | (injection h with h
         subst h
         first
           | exact ⟨_, rfl⟩
           | exact ⟨[], by simp⟩)
      | simp at h

/-- A successful INSERT batch only ever appends to `ai_models`. -/
theorem execStmts_models_mono {l : List SqlStmt} : ∀ {s s' : DBState},
    execStmts s l = Except.ok s' →
    ∃ suf, s'.ai_models = s.ai_models ++ suf := by
  induction l with
  | nil =>
      intro s s' h
      injection h with h
      subst h
      exact ⟨[], by simp⟩
  | cons st rest ih =>
      intro s s' h
      rw [execStmts] at h
      split at h
      · exact absurd h (by simp)
      next s1 heq =>
        obtain ⟨suf1, h1⟩ := execStmt_models_mono heq
        obtain ⟨suf2, h2⟩ := ih h
        exact ⟨suf1 ++ suf2, by rw [h2, h1, List.append_assoc]⟩

/-- After a successful seed, the demo model (DeepPacket, 1.2.0) is in the
model table, so its unique constraint will block a repeat. -/
theorem seedAttempt_ok_conflict {s s' : DBState}
    (h : seedAttempt s = Except.ok s') :
    aiModelsConflict s'.ai_models "DeepPacket" "1.2.0" = true := by
  rw [seedAttempt, demoScript, execStmts] at h
  split at h
  · exact absurd h (by simp)
  next s1 heq =>
    simp only [execStmt, insertAIModel] at heq
    split at heq
    · exact absurd heq (by simp)
    · injection heq with heq
      subst heq
      obtain ⟨suf, hsuf⟩ := execStmts_models_mono h
      rw [hsuf]
      simp [aiModelsConflict]

/-- With (DeepPacket, 1.2.0) already present, the very first statement of
the seed batch violates the unique constraint, so `insert_demo_data`
rolls back and fails. -/
theorem seed_fails_on_conflict {s : DBState}
    (h : aiModelsConflict s.ai_models "DeepPacket" "1.2.0" = true) :
    insert_demo_data s = (s, false) := by
  have hatt : seedAttempt s = Except.error DbError.uniqueViolation := by
    rw [seedAttempt, demoScript, execStmts]
    simp [execStmt, insertAIModel, h]
  rw [insert_demo_data, hatt]

/-- On failure, `insert_demo_data` leaves the state unchanged. -/
theorem insert_demo_data_of_fail {s : DBState}
    (h : (insert_demo_data s).2 = false) : (insert_demo_data s).1 = s := by
  rw [insert_demo_data] at h ⊢
  cases hs : seedAttempt s with
  | ok s' =>
      rw [hs] at h
      exact absurd h (by simp)
  | error e => rfl

/-- C1 (amended): seed loading performs no emptiness pre-check; on every
state it either fails with the whole batch rolled back (state unchanged,
False reported) or succeeds with all four tables receiving the fixed demo
rows (3 models, 3 attacks, 1 experiment, 3 results) in one transaction. -/
theorem C1_seed_all_or_nothing (s : DBState) :
    insert_demo_data s = (s, false) ∨
    ((insert_demo_data s).2 = true ∧
     (insert_demo_data s).1.ai_models.length = s.ai_models.length + 3 ∧
     (insert_demo_data s).1.ddos_attacks.length = s.ddos_attacks.length + 3 ∧
     (insert_demo_data s).1.experiments.length = s.experiments.length + 1 ∧
     (insert_demo_data s).1.experiment_results.length
       = s.experiment_results.length + 3) := by
  cases h : seedAttempt s with
  | error e =>
      left
      rw [insert_demo_data, h]
  | ok s' =>
      right
      have h' : execStmts s demoScript = Except.ok s' := h
      obtain ⟨h1, h2, h3, h4⟩ := execStmts_ok_lengths h'
      have m1 : (demoScript.map stmtModelCount).sum = 3 := by decide
      have m2 : (demoScript.map stmtAttackCount).sum = 3 := by decide
      have m3 : (demoScript.map stmtExperimentCount).sum = 1 := by decide
      have m4 : (demoScript.map stmtResultCount).sum = 3 := by decide
      rw [m1] at h1
      rw [m2] at h2
      rw [m3] at h3
      rw [m4] at h4
      rw [insert_demo_data, h]
      exact ⟨rfl, h1, h2, h3, h4⟩

/-- C3: seed loading is idempotent — after any first invocation, a second
invocation leaves the four row counts (and in fact the whole state)
exactly as the first left them. -/
theorem C3_seed_idempotent (s : DBState) :
    (insert_demo_data (insert_demo_data s).1).1.ai_models.length
      = (insert_demo_data s).1.ai_models.length ∧
    (insert_demo_data (insert_demo_data s).1).1.ddos_attacks.length
      = (insert_demo_data s).1.ddos_attacks.length ∧
    (insert_demo_data (insert_demo_data s).1).1.experiments.length
      = (insert_demo_data s).1.experiments.length ∧
    (insert_demo_data (insert_demo_data s).1).1.experiment_results.length
      = (insert_demo_data s).1.experiment_results.length ∧
    (insert_demo_data (insert_demo_data s).1).1 = (insert_demo_data s).1 := by
  have hmain : (insert_demo_data (insert_demo_data s).1).1 = (insert_demo_data s).1 := by
    cases h : seedAttempt s with
    | error e =>
        have h1 : insert_demo_data s = (s, false) := by rw [insert_demo_data, h]
        simp [h1]
    | ok s' =>
        have h1 : insert_demo_data s = (s', true) := by rw [insert_demo_data, h]
        have h2 := seed_fails_on_conflict (seedAttempt_ok_conflict h)
        simp [h1, h2]
  exact ⟨by rw [hmain], by rw [hmain], by rw [hmain], by rw [hmain], hmain⟩

/-- C2 (amended): the psycopg2 schema-creation routine `create_tables`
ensures all five schema objects exist, leaves every already-existing
table's rows untouched, is idempotent, and on failure reports False
leaving the database unchanged.  (The SQLAlchemy routine
`drop_and_create_schema_sa` does not have the preservation property; see
its counterexample.) -/
theorem C2_create_tables_idempotent (d : PgDatabase) :
    ((create_tables d false).2 = true ∧
     (create_tables d false).1.catalog = fullCatalog) ∧
    (d.catalog.ai_models = true →
      (create_tables d false).1.data.ai_models = d.data.ai_models) ∧
    (d.catalog.experiments = true →
      (create_tables d false).1.data.experiments = d.data.experiments) ∧
    (d.catalog.ddos_attacks = true →
      (create_tables d false).1.data.ddos_attacks = d.data.ddos_attacks) ∧
    (d.catalog.experiment_results = true →
      (create_tables d false).1.data.experiment_results
        = d.data.experiment_results) ∧
    (create_tables (create_tables d false).1 false
      = ((create_tables d false).1, true)) ∧
    (create_tables d true = (d, false)) := by
  refine ⟨⟨rfl, rfl⟩, ?_, ?_, ?_, ?_, ?_, rfl⟩
  · intro h
    simp [create_tables, create_tables_ok, h]
  · intro h
    simp [create_tables, create_tables_ok, h]
  · intro h
    simp [create_tables, create_tables_ok, h]
  · intro h
    simp [create_tables, create_tables_ok, h]
  · simp [create_tables, create_tables_ok, fullCatalog]

/-- Witness for C2 at a populated database with a full catalog. -/
theorem C2_create_tables_idempotent_witness :
    (create_tables populatedDatabase false).1.data.ai_models
      = populatedDatabase.data.ai_models ∧
    (create_tables populatedDatabase false).1.data.experiments
      = populatedDatabase.data.experiments ∧
    create_tables (create_tables populatedDatabase false).1 false
      = ((create_tables populatedDatabase false).1, true) ∧
    create_tables populatedDatabase true = (populatedDatabase, false) := by
  have h := C2_create_tables_idempotent populatedDatabase
  exact ⟨h.2.1 rfl, h.2.2.1 rfl, h.2.2.2.2.2.1, h.2.2.2.2.2.2⟩

/-- C4: after every call to the adapter's `refresh`, the cached set is
exactly the (columns, rows) pair `fetch_data` returned — rowCount is the
fetched row count, columnCount the fetched column count, every valid cell
is the `str` rendering of the fetched cell — and the whole cache is
swapped in one step, independent of the previous cache. -/
theorem C4_refresh_caches_fetch (m : PostgreSQLTableModel) (c : PgConn)
    (t : String) :
    ((m.refresh c t).2
      = { columns := (fetch_data c t).2.1, rows := (fetch_data c t).2.2 }) ∧
    ((m.refresh c t).2.rowCount = (fetch_data c t).2.2.length) ∧
    ((m.refresh c t).2.columnCount = (fetch_data c t).2.1.length) ∧
    (∀ r col row cell, (fetch_data c t).2.2[r]? = some row →
      row[col]? = some cell →
      (m.refresh c t).2.dataAt r col = some cell.render) ∧
    (∀ m2 : PostgreSQLTableModel, m2.refresh c t = m.refresh c t) := by
  refine ⟨rfl, rfl, rfl, ?_, fun m2 => rfl⟩
  intro r col row cell hr hc
  simp [PostgreSQLTableModel.refresh, PostgreSQLTableModel.dataAt, hr, hc]

/-- The seeded database reached by one schema creation plus one seed. -/
def seededConn : PgConn :=
  { db := (insert_demo_data emptyDB).1, tx := TxStatus.idle }

/-- An adapter whose cache is empty before its first refresh. -/
def emptyAdapter : PostgreSQLTableModel := { columns := [], rows := [] }

/-- Witness for C4: refreshing over the seeded database caches 3 model
rows and 5 columns, and cell (0, 1) renders as "DeepPacket". -/
theorem C4_refresh_caches_fetch_witness :
    (emptyAdapter.refresh seededConn "ai_models").2.rowCount
      = (fetch_data seededConn "ai_models").2.2.length ∧
    (emptyAdapter.refresh seededConn "ai_models").2.rowCount = 3 ∧
    (emptyAdapter.refresh seededConn "ai_models").2.columnCount = 5 ∧
    (emptyAdapter.refresh seededConn "ai_models").2.dataAt 0 1
      = some "DeepPacket" := by
  have h := C4_refresh_caches_fetch emptyAdapter seededConn "ai_models"
  refine ⟨h.2.1, by decide, by decide, ?_⟩
  have h4 := h.2.2.2.1 0 1
    (aiModelRowValues
      { model_id := 1, name := "DeepPacket", version := "1.2.0"
        description := some "CNN для анализа сетевых пакетов", is_active := true })
    (PgValue.vstr "DeepPacket") (by decide) (by decide)
  simpa [PgValue.render] using h4

/-- C6: any model submission whose trimmed (name, version) pair already
exists in `ai_models` is rejected — the outcome is an error box, never a
successful add — and the table state (hence its row count) is unchanged:
the failed INSERT's transaction is rolled back. -/
theorem C6_duplicate_model_rejected (s : DBState)
    (nameText versionText descText : String) (act : Bool)
    (h : aiModelsConflict s.ai_models (pyStrip nameText) (pyStrip versionText)
      = true) :
    (add_model s nameText versionText descText act).1 = s ∧
    (add_model s nameText versionText descText act).1.ai_models.length
      = s.ai_models.length ∧
    (add_model s nameText versionText descText act).2 ≠ FormOutcome.added := by
  have hins : insertAIModel s (pyStrip nameText) (pyStrip versionText)
      (some (pyStrip descText)) act = Except.error DbError.uniqueViolation := by
    rw [insertAIModel, if_pos h]
  by_cases he : pyStrip nameText = "" ∨ pyStrip versionText = ""
  · refine ⟨?_, ?_, ?_⟩ <;> simp [add_model, he]
  · refine ⟨?_, ?_, ?_⟩ <;> simp [add_model, he, hins]

/-- A database already holding the model ("A", "1"). -/
def dupModelDB : DBState :=
  { ai_models := [{ model_id := 1, name := "A", version := "1"
                    description := none, is_active := true }]
    experiments := [], ddos_attacks := [], experiment_results := []
    next_model_id := 2, next_experiment_id := 1, next_attack_id := 1
    next_result_id := 1 }

/-- Witness for C6: re-submitting ("A", "1") is rejected with the table
unchanged. -/
theorem C6_duplicate_model_rejected_witness :
    (add_model dupModelDB "A" "1" "" true).1 = dupModelDB ∧
    (add_model dupModelDB "A" "1" "" true).1.ai_models.length
      = dupModelDB.ai_models.length ∧
    (add_model dupModelDB "A" "1" "" true).2 ≠ FormOutcome.added :=
  C6_duplicate_model_rejected dupModelDB "A" "1" "" true (by decide)

/-- The empty port field parses to the empty list (no token survives the
blank filter). -/
theorem parsePorts_empty : parsePorts "" = some [] := by decide

/-- C7 (amended): in the SQLAlchemy attack form, every submission whose
non-empty port field has a non-numeric token or an out-of-range integer
is rejected with a message box and no INSERT is issued (state unchanged).
The psycopg2 attack form in widgets.py lacks this validation; see the
counterexample. -/
theorem C7_sa_ports_validated (s : DBState) (sourceText targetText : String)
    (ty : AttackType) (packets duration : Int) (portsText : String)
    (h : parsePorts (pyStrip portsText) = none ∨
         ∃ tps, parsePorts (pyStrip portsText) = some tps ∧
           tps.any portOutOfRange = true) :
    (add_attack_sa s sourceText targetText ty packets duration portsText).1 = s ∧
    ((add_attack_sa s sourceText targetText ty packets duration portsText).2
        = FormOutcome.inputError
          "Некорректный формат портов. Используйте числа, разделенные запятыми" ∨
     (add_attack_sa s sourceText targetText ty packets duration portsText).2
        = FormOutcome.inputError "Порты должны быть в диапазоне 1-65535") := by
  have hne : ¬ (pyStrip portsText = "") := by
    intro he
    rw [he] at h
    rcases h with h1 | ⟨tps, h1, h2⟩
    · rw [parsePorts_empty] at h1
      exact Option.noConfusion h1
    · rw [parsePorts_empty] at h1
      injection h1 with h1
      subst h1
      simp at h2
  rcases h with h1 | ⟨tps, h1, h2⟩
  · refine ⟨?_, Or.inl ?_⟩ <;> simp [add_attack_sa, hne, h1]
  · have htne : tps.isEmpty = false := by
      rcases List.any_eq_true.mp h2 with ⟨x, hx, _⟩
      cases tps with
      | nil => exact absurd hx (List.not_mem_nil x)
      | cons a l => rfl
    refine ⟨?_, Or.inr ?_⟩ <;> simp [add_attack_sa, hne, h1, h2, htne]

/-- Witness for C7 at the out-of-range port 70000. -/
theorem C7_sa_ports_validated_witness :
    (add_attack_sa emptyDB "10.0.0.1" "10.0.0.50" AttackType.udp_flood
      1000 60 "70000").1 = emptyDB ∧
    ((add_attack_sa emptyDB "10.0.0.1" "10.0.0.50" AttackType.udp_flood
      1000 60 "70000").2
        = FormOutcome.inputError
          "Некорректный формат портов. Используйте числа, разделенные запятыми" ∨
     (add_attack_sa emptyDB "10.0.0.1" "10.0.0.50" AttackType.udp_flood
      1000 60 "70000").2
        = FormOutcome.inputError "Порты должны быть в диапазоне 1-65535") :=
  C7_sa_ports_validated emptyDB "10.0.0.1" "10.0.0.50" AttackType.udp_flood
    1000 60 "70000" (Or.inr ⟨[70000], by decide, by decide⟩)

/-- C8 (amended): the row fetch used by the adapter's refresh catches the
failure but performs no rollback — the connection is left with an aborted
transaction — and returns the silent pair `([], [])`, indistinguishable
from an empty table; by contrast the seed routine's failure path does
roll the connection back to idle. -/
theorem C8_fetch_swallows_error (c : PgConn) (t : String)
    (h : ∃ e, runSelectAll c.db t = Except.error e) :
    (fetch_data c t).1.tx = TxStatus.aborted ∧
    (fetch_data c t).2 = (([] : List String), ([] : List (List PgValue))) ∧
    ((insert_demo_data_conn c).2 = false →
      insert_demo_data_conn c = (PgConn.rollback c, false)) := by
  obtain ⟨e, he⟩ := h
  refine ⟨?_, ?_, ?_⟩
  · by_cases ha : c.tx = TxStatus.aborted <;> simp [fetch_data, ha, he]
  · by_cases ha : c.tx = TxStatus.aborted <;> simp [fetch_data, ha, he]
  · intro h2
    rw [insert_demo_data_conn] at h2 ⊢
    cases hs : seedAttempt c.db with
    | ok s' =>
        rw [hs] at h2
        exact absurd h2 (by simp)
    | error e2 => rfl

/-- Witness for C8 over the seeded connection: a fetch of a missing table
aborts silently, while the (failing) re-seed on the same connection rolls
back to idle. -/
theorem C8_fetch_swallows_error_witness :
    (fetch_data seededConn "missing_table").1.tx = TxStatus.aborted ∧
    (fetch_data seededConn "missing_table").2
      = (([] : List String), ([] : List (List PgValue))) ∧
    insert_demo_data_conn seededConn = (PgConn.rollback seededConn, false) := by
  have h := C8_fetch_swallows_error seededConn "missing_table"
    ⟨DbError.undefinedTable, rfl⟩
  exact ⟨h.1, h.2.1, h.2.2 (by decide)⟩

/-!
Referential integrity of `experiment_results`, as a proposition, and its
preservation by every operation the application issues.
-/

/-- Every result row references an existing experiment and an existing
attack. -/
def RefIntegrity (s : DBState) : Prop :=
  ∀ r ∈ s.experiment_results,
    (∃ e ∈ s.experiments, e.experiment_id = r.experiment_id) ∧
    (∃ a ∈ s.ddos_attacks, a.attack_id = r.attack_id)

/-- The executable integrity check agrees with the proposition. -/
theorem refIntegrityB_iff (s : DBState) :
    refIntegrityB s = true ↔ RefIntegrity s := by
  simp only [refIntegrityB, RefIntegrity, List.all_eq_true, Bool.and_eq_true,
    List.any_eq_true, beq_iff_eq]

/-- A successful model INSERT preserves integrity (it touches no table the
invariant mentions). -/
theorem refInt_insertAIModel {s s' : DBState} {n v : String}
    {d : Option String} {a : Bool} (hs : RefIntegrity s)
    (h : insertAIModel s n v d a = Except.ok s') : RefIntegrity s' := by
  rw [insertAIModel] at h
  split at h
  · exact absurd h (by simp)
  · injection h with h
    subst h
    exact fun r hr => hs r hr

/-- A successful attack INSERT preserves integrity (the attack table only
grows). -/
theorem refInt_insertAttack {s s' : DBState} {src tgt : String}
    {ty : AttackType} {p dur : Option Int} {ports : Option (List Int)}
    (hs : RefIntegrity s)
    (h : insertAttack s src tgt ty p dur ports = Except.ok s') :
    RefIntegrity s' := by
  rw [insertAttack] at h
  split at h
  · exact absurd h (by simp)
  split at h
  · exact absurd h (by simp)
  injection h with h
  subst h
  intro r hr
  obtain ⟨⟨e, he, hee⟩, ⟨a, ha, haa⟩⟩ := hs r hr
  exact ⟨⟨e, he, hee⟩, ⟨a, List.mem_append_left _ ha, haa⟩⟩

/-- A successful experiment INSERT preserves integrity (the experiment
table only grows). -/
theorem refInt_insertExperiment {s s' : DBState} {n : String}
    {mid : Option Nat} {total det : Option Int} (hs : RefIntegrity s)
    (h : insertExperiment s n mid total det = Except.ok s') :
    RefIntegrity s' := by
  rw [insertExperiment] at h
  split at h
  · exact absurd h (by simp)
  split at h
  · exact absurd h (by simp)
  split at h
  · exact absurd h (by simp)
  split at h
  · exact absurd h (by simp)
  injection h with h
  subst h
  intro r hr
  obtain ⟨⟨e, he, hee⟩, ⟨a, ha, haa⟩⟩ := hs r hr
  exact ⟨⟨e, List.mem_append_left _ he, hee⟩, ⟨a, ha, haa⟩⟩

/-- A successful result INSERT preserves integrity: its foreign-key
checks guarantee the new row's parents exist. -/
theorem refInt_insertResult {s s' : DBState} {eid aid : Nat} {det : Bool}
    {conf : Option Rat} {ms : Option Int} (hs : RefIntegrity s)
    (h : insertResult s eid aid det conf ms = Except.ok s') :
    RefIntegrity s' := by
  rw [insertResult] at h
  split at h
  case isTrue => exact absurd h (by simp)
  case isFalse h1 =>
  split at h
  case isTrue => exact absurd h (by simp)
  case isFalse h2 =>
  split at h
  · exact absurd h (by simp)
  split at h
  · exact absurd h (by simp)
  split at h
  · exact absurd h (by simp)
  injection h with h
  subst h
  have h1' : (s.experiments.any fun e => e.experiment_id == eid) = true :=
    Bool.of_not_eq_false (by simpa using h1)
  have h2' : (s.ddos_attacks.any fun a => a.attack_id == aid) = true :=
    Bool.of_not_eq_false (by simpa using h2)
  obtain ⟨e, he, hee⟩ := List.any_eq_true.mp h1'
  obtain ⟨a, ha, haa⟩ := List.any_eq_true.mp h2'
  intro r hr
  rcases List.mem_append.mp hr with hold | hnew
  · obtain ⟨⟨e2, he2, hee2⟩, ⟨a2, ha2, haa2⟩⟩ := hs r hold
    exact ⟨⟨e2, he2, hee2⟩, ⟨a2, ha2, haa2⟩⟩
  · have hr' := List.mem_singleton.mp hnew
    subst hr'
    exact ⟨⟨e, he, by simpa using hee⟩, ⟨a, ha, by simpa using haa⟩⟩

/-- Every successful INSERT statement preserves integrity. -/
theorem refInt_execStmt {s s' : DBState} {st : SqlStmt} (hs : RefIntegrity s)
    (h : execStmt s st = Except.ok s') : RefIntegrity s' := by
  cases st with
  | modelRow n v d a => exact refInt_insertAIModel hs h
  | attackRow src tgt ty p dur ports => exact refInt_insertAttack hs h
  | experimentRow n mid total det => exact refInt_insertExperiment hs h
  | resultRow eid aid det conf ms => exact refInt_insertResult hs h

/-- A successful INSERT batch preserves integrity. -/
theorem refInt_execStmts {l : List SqlStmt} : ∀ {s s' : DBState},
    RefIntegrity s → execStmts s l = Except.ok s' → RefIntegrity s' := by
  induction l with
  | nil =>
      intro s s' hs h
      injection h with h
      subst h
      exact hs
  | cons st rest ih =>
      intro s s' hs h
      rw [execStmts] at h
      split at h
      · exact absurd h (by simp)
      next s1 heq => exact ih (refInt_execStmt hs heq) h

/-- Seeding preserves integrity (whether it commits or rolls back). -/
theorem refInt_seed {s : DBState} (hs : RefIntegrity s) :
    RefIntegrity (insert_demo_data s).1 := by
  rw [insert_demo_data]
  cases h : seedAttempt s with
  | ok s' => exact refInt_execStmts hs h
  | error e => exact hs

/-- A form INSERT (with rollback on failure) preserves integrity. -/
theorem refInt_applyStmt {s : DBState} {st : SqlStmt} (hs : RefIntegrity s) :
    RefIntegrity (applyStmt s st) := by
  rw [applyStmt]
  cases h : execStmt s st with
  | ok s' => exact refInt_execStmt hs h
  | error e => exact hs

/-- Deleting a model preserves integrity: experiments keep their identity
(only their `model_id` is nulled) and results are untouched. -/
theorem refInt_delete_model {s : DBState} (hs : RefIntegrity s) (mid : Nat) :
    RefIntegrity (delete_model s mid) := by
  intro r hr
  obtain ⟨⟨e, he, hee⟩, ⟨a, ha, haa⟩⟩ := hs r hr
  refine ⟨⟨(fun e => if e.model_id == some mid then { e with model_id := none }
    else e) e, List.mem_map_of_mem _ he, ?_⟩, ⟨a, ha, haa⟩⟩
  by_cases hm : e.model_id == some mid
  · simp only [hm, if_pos]
    exact hee
  · simp only [hm]
    simpa using hee

/-- Cascade deletion of an experiment preserves integrity: every
surviving result's experiment survives the same filter. -/
theorem refInt_delete_experiment {s : DBState} (hs : RefIntegrity s)
    (eid : Nat) : RefIntegrity (delete_experiment s eid) := by
  intro r hr
  obtain ⟨hrmem, hrne⟩ := List.mem_filter.mp hr
  obtain ⟨⟨e, he, hee⟩, ⟨a, ha, haa⟩⟩ := hs r hrmem
  refine ⟨⟨e, List.mem_filter.mpr ⟨he, ?_⟩, hee⟩, ⟨a, ha, haa⟩⟩
  simpa [hee] using hrne

/-- Cascade deletion of an attack preserves integrity. -/
theorem refInt_delete_attack {s : DBState} (hs : RefIntegrity s)
    (aid : Nat) : RefIntegrity (delete_attack s aid) := by
  intro r hr
  obtain ⟨hrmem, hrne⟩ := List.mem_filter.mp hr
  obtain ⟨⟨e, he, hee⟩, ⟨a, ha, haa⟩⟩ := hs r hrmem
  refine ⟨⟨e, he, hee⟩, ⟨a, List.mem_filter.mpr ⟨ha, ?_⟩, haa⟩⟩
  simpa [haa] using hrne

/-- Deleting a single result preserves integrity. -/
theorem refInt_delete_result {s : DBState} (hs : RefIntegrity s)
    (rid : Nat) : RefIntegrity (delete_result s rid) := by
  intro r hr
  exact hs r (List.mem_filter.mp hr).1

/-- Every reachable state satisfies referential integrity. -/
theorem reachable_refIntegrity {s : DBState} (h : ReachableDB s) :
    RefIntegrity s := by
  induction h with
  | init => intro r hr; exact absurd hr (List.not_mem_nil r)
  | seed s hs ih => exact refInt_seed ih
  | form_insert s st hs ih => exact refInt_applyStmt ih
  | del_model s mid hs ih => exact refInt_delete_model ih mid
  | del_experiment s eid hs ih => exact refInt_delete_experiment ih eid
  | del_attack s aid hs ih => exact refInt_delete_attack ih aid
  | del_result s rid hs ih => exact refInt_delete_result ih rid

/-- C5: in every reachable database state, result rows never outlive
their parents — every result references an existing experiment and
attack — and deleting any experiment (resp. attack) removes every result
row referencing it, by the ON DELETE CASCADE foreign keys. -/
theorem C5_results_never_outlive_parents (s : DBState) (h : ReachableDB s) :
    refIntegrityB s = true ∧
    (∀ eid, ((delete_experiment s eid).experiment_results.all
      (fun r => r.experiment_id != eid)) = true) ∧
    (∀ aid, ((delete_attack s aid).experiment_results.all
      (fun r => r.attack_id != aid)) = true) := by
  refine ⟨(refIntegrityB_iff s).mpr (reachable_refIntegrity h), ?_, ?_⟩
  · intro eid
    apply List.all_eq_true.mpr
    intro r hr
    exact (List.mem_filter.mp hr).2
  · intro aid
    apply List.all_eq_true.mpr
    intro r hr
    exact (List.mem_filter.mp hr).2

/-- Witness for C5 at the seeded state: integrity holds, and deleting
experiment 1 (resp. attack 1) leaves no result row referencing it — in
particular deleting experiment 1 empties the result table, since all
three seeded results reference it. -/
theorem C5_results_never_outlive_parents_witness :
    refIntegrityB (insert_demo_data emptyDB).1 = true ∧
    ((delete_experiment (insert_demo_data emptyDB).1 1).experiment_results.all
      (fun r => r.experiment_id != 1)) = true ∧
    ((delete_attack (insert_demo_data emptyDB).1 1).experiment_results.all
      (fun r => r.attack_id != 1)) = true ∧
    (delete_experiment (insert_demo_data emptyDB).1 1).experiment_results
      = [] := by
  have h := C5_results_never_outlive_parents (insert_demo_data emptyDB).1
    (ReachableDB.seed emptyDB ReachableDB.init)
  exact ⟨h.1, h.2.1 1, h.2.2 1, by decide⟩
